import Mathlib

/-!
Shallow embedding of the Fire-Flow contract loop
(src/fire-flow/workflows/contract_loop.py and src/fire-flow/workflows/client.py).

The Python code is a Hatchet workflow: Init → Generate → Execute → Validate →
Decide → CollectFeedback → RetryOrComplete, where each step is a Python method
reading the outputs of earlier steps, and external tools are Nushell scripts
run as subprocesses through `run_nu_script`.

Modelling choices:
* JSON values are `JValue`; Python truthiness is `truthy`.
* `json.loads` / `json.dumps` are Python-library code external to the
  repository, so they appear as parameters `parse : String → Option JValue`
  and `dumps : JValue → String` of the definitions that use them.
* A subprocess invocation's observable outcome (timed out / return code /
  stdout / stderr) is a `ProcOutcome` supplied by the environment; the three
  tool invocations of a workflow run and the filesystem reads are collected in
  an `Env`.
* Python exceptions that the code can raise and does not catch are the
  `PyExc` error type of `Except`.
-/

namespace FireFlow

/-- JSON values, as produced by `json.loads` and consumed by the workflow.
Numbers are modelled as integers; no claim under study involves fractional
JSON numbers. -/
inductive JValue where
  | null : JValue
  | bool : Bool → JValue
  | num : Int → JValue
  | str : String → JValue
  | arr : List JValue → JValue
  | obj : List (String × JValue) → JValue

/-- Python truthiness of a JSON value: `None`, `False`, `0`, `""`, `[]`, and
an empty dict are falsy, everything else is truthy. -/
def truthy : JValue → Bool
  | .null => false
  | .bool b => b
  | .num n => n != 0
  | .str s => s != ""
  | .arr xs => !xs.isEmpty
  | .obj fs => !fs.isEmpty

/-- First binding of a key in an association list (Python dicts cannot hold a
key twice, so on images of real dicts this is exact lookup). -/
def jlookup : List (String × JValue) → String → Option JValue
  | [], _ => none
  | (k, v) :: rest, key => if k == key then some v else jlookup rest key

/-- Exceptions the Python code can raise and does not catch. -/
inductive PyExc where
  | timeoutExpired : PyExc
  | jsonDecodeError : PyExc
  | attributeError : PyExc
  | generationFailed : JValue → PyExc

/-- Python `x.get(key, default)`: succeeds on a dict, raises
`AttributeError` on any non-dict value (which is what `subprocess` results
parsed from arbitrary JSON can be). -/
def pyGet (v : JValue) (key : String) (dflt : JValue) : Except PyExc JValue :=
  match v with
  | .obj fs => .ok ((jlookup fs key).getD dflt)
  | _ => .error .attributeError

/-- Observable outcome of one `subprocess.run` call (text mode): whether the
300-second timeout fired, and otherwise the return code and the two captured
streams. -/
structure ProcOutcome where
  timedOut : Bool
  returncode : Int
  stdout : String
  stderr : String
deriving DecidableEq, Repr

/-- Embedding of `run_nu_script` (contract_loop.py lines 27-50).
`subprocess.run(..., timeout=300)` raises `TimeoutExpired` when the timeout
fires, and the function has no handler for it, so a timeout propagates as an
exception. On nonzero exit it returns a failure dict whose `error` is stderr,
or an exit-code message when stderr is empty (Python `or`). On zero exit the
stdout JSON is passed through unwrapped when it parses, and wrapped as
`success`/`raw_output` when it does not. -/
def run_nu_script (parse : String → Option JValue) (proc : ProcOutcome) :
    Except PyExc JValue :=
  if proc.timedOut then
    .error .timeoutExpired
  else if proc.returncode != 0 then
    .ok (.obj [("success", .bool false),
               ("error", .str (if proc.stderr != "" then proc.stderr
                               else "Exit code: " ++ toString proc.returncode)),
               ("stdout", .str proc.stdout)])
  else
    match parse proc.stdout with
    | some j => .ok j
    | none => .ok (.obj [("success", .bool true),
                         ("raw_output", .str proc.stdout)])

/-- The `_retry_state` object that `retry_or_complete` places into the input
of the workflow run it spawns (contract_loop.py lines 259-264). -/
structure RetryState where
  attempt : Int
  feedback : Option String
  trace_id : String
  work_dir : String

/-- Input payload of one workflow run. The client (client.py) always sends
`contract`, `task`, `input_json` and `max_attempts`; spawned retry runs
additionally carry `_retry_state` (modelled as `retry_state`). `input_json`
and `max_attempts` are `Option` because the workflow reads them with
`.get(..., default)`. -/
structure WorkflowInput where
  contract : String
  task : String
  input_json : Option String
  max_attempts : Option Int
  retry_state : Option RetryState

/-- Environment one workflow run executes in: the run id Hatchet assigns, the
random name `tempfile.mkdtemp` picks, the outcomes of the three tool
subprocesses, and the filesystem visible to `open`/`read` (`none` models a
missing or unreadable file). -/
structure Env where
  runId : String
  tempName : String
  genProc : ProcOutcome
  execProc : ProcOutcome
  valProc : ProcOutcome
  readFile : String → Option String

/-- Output of the `init` step (contract_loop.py lines 64-80). -/
structure InitData where
  trace_id : String
  work_dir : String
  attempt : Int
  max_attempts : Int
  feedback : String

/-- Embedding of `ContractLoopWorkflow.init`: fresh trace id from the run id,
fresh scratch directory from `tempfile.mkdtemp(prefix=...)`, attempt counter
`0`, `max_attempts` from the input with default `5`, feedback
`"Initial generation"`. Note that the source reads nothing else from the
workflow input here — in particular it never reads `_retry_state`. -/
def init (env : Env) (w : WorkflowInput) : InitData :=
  { trace_id := env.runId
    work_dir := "/tmp/fire-flow-" ++ env.runId.take 8 ++ "-" ++ env.tempName
    attempt := 0
    max_attempts := w.max_attempts.getD 5
    feedback := "Initial generation" }

/-- The `generate_input` request dict sent to `generate.nu`
(contract_loop.py lines 93-100); `context.trace_id` is flattened into a
field. -/
structure GenRequest where
  contract_path : String
  task : String
  feedback : String
  attempt : String
  output_path : String
  trace_id : String

/-- Request built by the `generate` step for the generator tool. -/
def generateRequest (w : WorkflowInput) (initD : InitData) : GenRequest :=
  { contract_path := w.contract
    task := w.task
    feedback := initD.feedback
    attempt := toString (initD.attempt + 1) ++ "/" ++ toString initD.max_attempts
    output_path := initD.work_dir ++ "/tool.nu"
    trace_id := initD.trace_id }

/-- Output of the `generate` step. The source returns
`{"tool_path": ..., "attempt": ..., **result}`; downstream steps read only
`tool_path` and `attempt`, so the step's computed values are kept as fields
and the raw tool result alongside (the dict spread can only differ when the
generator response itself contains a `tool_path` or `attempt` key, which the
generator contract does not produce and no theorem below exercises). -/
structure GenData where
  tool_path : String
  attempt : Int
  result : JValue

/-- Embedding of `ContractLoopWorkflow.generate` (lines 82-111): bump the
attempt counter, build the request, run `generate.nu`, and raise
`Exception("Generation failed: ...")` unless the result has a truthy
`success` field. -/
def generate (parse : String → Option JValue) (proc : ProcOutcome)
    (w : WorkflowInput) (initD : InitData) : Except PyExc GenData := do
  let attempt := initD.attempt + 1
  let tool_path := initD.work_dir ++ "/tool.nu"
  let _generate_input := generateRequest w initD
  let result ← run_nu_script parse proc
  let s ← pyGet result "success" (.bool false)
  if truthy s then
    pure { tool_path := tool_path, attempt := attempt, result := result }
  else
    let e ← pyGet result "error" (.str "Unknown error")
    throw (.generationFailed e)

/-- The `execute_input` request dict sent to `run-tool.nu`
(lines 123-129). -/
structure ExecRequest where
  tool_path : String
  tool_input : JValue
  output_path : String
  logs_path : String
  trace_id : String

/-- Request building of the `execute` step: `json.loads` of the caller's
`input_json` (defaulting to the string "\x7b\x7d") happens here and raises
`JSONDecodeError` when it does not parse. -/
def executeRequest (parse : String → Option JValue) (w : WorkflowInput)
    (initD : InitData) (genD : GenData) : Except PyExc ExecRequest :=
  match parse (w.input_json.getD "\x7b\x7d") with
  | none => .error .jsonDecodeError
  | some ti =>
      .ok { tool_path := genD.tool_path
            tool_input := ti
            output_path := initD.work_dir ++ "/output.json"
            logs_path := initD.work_dir ++ "/logs.json"
            trace_id := initD.trace_id }

/-- Output of the `execute` step (lines 133-137). -/
structure ExecData where
  output_path : String
  logs_path : String
  execution_result : JValue

/-- Embedding of `ContractLoopWorkflow.execute` (lines 113-137): parse the
caller input, run `run-tool.nu`, and return the paths plus the raw tool
result (a failed execution is not raised here — it is forwarded). -/
def execute (parse : String → Option JValue) (proc : ProcOutcome)
    (w : WorkflowInput) (initD : InitData) (genD : GenData) :
    Except PyExc ExecData := do
  let _req ← executeRequest parse w initD genD
  let result ← run_nu_script parse proc
  pure { output_path := initD.work_dir ++ "/output.json"
         logs_path := initD.work_dir ++ "/logs.json"
         execution_result := result }

/-- Output of the `validate` step (lines 157-160); `valid` holds whatever
`result.get("data", {}).get("valid", False)` produced. -/
structure ValData where
  valid : JValue
  validation_result : JValue

/-- The `is_valid` lookup of the `validate` step (line 155):
`result.get("data", {}).get("valid", False)`. -/
def extract_valid (result : JValue) : Except PyExc JValue := do
  let d ← pyGet result "data" (.obj [])
  pyGet d "valid" (.bool false)

/-- Embedding of `ContractLoopWorkflow.validate` (lines 139-160): run
`validate.nu` and extract the fail-closed `valid` flag. -/
def validate (parse : String → Option JValue) (proc : ProcOutcome) :
    Except PyExc ValData := do
  let result ← run_nu_script parse proc
  let v ← extract_valid result
  pure { valid := v, validation_result := result }

/-- Outcome of the `decide` step (lines 162-188), with the extra data each
branch of the source returns. -/
inductive Decision where
  | success (attempts_made : Int)
  | escalate (attempts_made : Int) (last_error : JValue)
  | retry (attempt : Int)

/-- Embedding of `ContractLoopWorkflow.decide`: success on a truthy `valid`,
otherwise escalate once `attempt >= max_attempts`, otherwise retry. -/
def decide (initD : InitData) (genD : GenData) (valD : ValData) : Decision :=
  if truthy valD.valid then
    .success genD.attempt
  else if genD.attempt ≥ initD.max_attempts then
    .escalate genD.attempt valD.validation_result
  else
    .retry genD.attempt

/-- The ordered feedback lines of `collect_feedback` (lines 204-219): six
fixed parts, with the output-file content inserted at index 4 when the file
is readable; a read failure is swallowed. -/
def feedbackParts (dumps : JValue → String) (readFile : String → Option String)
    (initD : InitData) (execD : ExecData) (valD : ValData) (genD : GenData) :
    List String :=
  let base := ["ATTEMPT " ++ toString genD.attempt ++ "/" ++
                 toString initD.max_attempts ++ " FAILED.",
               "",
               "CONTRACT ERRORS:",
               dumps valD.validation_result,
               "",
               "FIX THE NUSHELL SCRIPT TO SATISFY THE CONTRACT."]
  match readFile execD.output_path with
  | some content => base.insertIdx 4 ("OUTPUT PRODUCED:\n" ++ content)
  | none => base

/-- Embedding of `ContractLoopWorkflow.collect_feedback` (lines 190-223):
`None` unless the decision is retry, else the newline join of the feedback
parts. -/
def collect_feedback (dumps : JValue → String)
    (readFile : String → Option String) (dec : Decision) (initD : InitData)
    (execD : ExecData) (valD : ValData) (genD : GenData) : Option String :=
  match dec with
  | .retry _ =>
      some (String.intercalate "\n"
        (feedbackParts dumps readFile initD execD valD genD))
  | _ => none

/-- Fixed escalation message (line 243). -/
def escalationMessage : String :=
  "AI failed to satisfy contract after max attempts. FIX THE PROMPT OR CONTRACT, NOT THE NUSHELL."

/-- Result of one whole workflow run: the dict `retry_or_complete` returns,
and the input payload of the spawned child run when the decision was
retry. -/
structure RunResult where
  final : JValue
  spawn : Option WorkflowInput

/-- Embedding of `ContractLoopWorkflow.retry_or_complete` (lines 225-271):
terminal success and escalated dicts, or the retrying dict plus a spawned
child whose input is the original workflow input with `_retry_state`
attached. -/
def retry_or_complete (w : WorkflowInput) (initD : InitData) (genD : GenData)
    (execD : ExecData) (dec : Decision) (fb : Option String) : RunResult :=
  match dec with
  | .success attempts_made =>
      { final := .obj [("status", .str "success"),
                       ("output_path", .str execD.output_path),
                       ("tool_path", .str genD.tool_path),
                       ("attempts", .num attempts_made)]
        spawn := none }
  | .escalate attempts_made last_error =>
      { final := .obj [("status", .str "escalated"),
                       ("message", .str escalationMessage),
                       ("attempts", .num attempts_made),
                       ("last_error", last_error)]
        spawn := none }
  | .retry attempt =>
      let rs : RetryState :=
        { attempt := attempt
          feedback := fb
          trace_id := initD.trace_id
          work_dir := initD.work_dir }
      { final := .obj [("status", .str "retrying"),
                       ("attempt", .num attempt)]
        spawn := some { w with retry_state := some rs } }

/-- One whole workflow run: the Hatchet step sequence
Init → Generate → Execute → Validate → Decide → CollectFeedback →
RetryOrComplete, each step consuming earlier step outputs, with an uncaught
Python exception in any step failing the run. -/
def workflowRun (parse : String → Option JValue) (dumps : JValue → String)
    (env : Env) (w : WorkflowInput) : Except PyExc RunResult := do
  let initD := init env w
  let genD ← generate parse env.genProc w initD
  let execD ← execute parse env.execProc w initD genD
  let valD ← validate parse env.valProc
  let dec := decide initD genD valD
  let fb := collect_feedback dumps env.readFile dec initD execD valD genD
  pure (retry_or_complete w initD genD execD dec fb)

/-- Embedding of `run_contract_loop` / `run_contract_loop_async`
(client.py lines 21-72): trigger one `ContractLoopWorkflow` run with the four
caller fields and await that run's result; the status-bearing part of the
awaited result is the output of its `retry_or_complete` step. -/
def run_contract_loop (parse : String → Option JValue)
    (dumps : JValue → String) (env : Env) (contract task input_json : String)
    (max_attempts : Int) : Except PyExc JValue :=
  (workflowRun parse dumps env
    { contract := contract
      task := task
      input_json := some input_json
      max_attempts := some max_attempts
      retry_state := none }).map RunResult.final

/-- State of the chain of workflow runs linked by `ctx.spawn_workflow`:
either a run finished without spawning (terminal), or a run raised, or the
fuel ran out with a spawned run still pending; each constructor counts the
Generate invocations performed so far. -/
inductive ChainOutcome where
  | terminal (final : JValue) (generates : Nat)
  | failed (exc : PyExc) (generates : Nat)
  | running (next : WorkflowInput) (generates : Nat)

/-- Add one performed Generate invocation to a chain outcome. -/
def ChainOutcome.bumpGen : ChainOutcome → ChainOutcome
  | .terminal f g => .terminal f (g + 1)
  | .failed e g => .failed e (g + 1)
  | .running w g => .running w (g + 1)

/-- Run the chain of spawned workflow runs, at most `fuel` runs, the k-th run
executing in environment `envs k`. -/
def runChainAux (parse : String → Option JValue) (dumps : JValue → String)
    (envs : Nat → Env) : Nat → WorkflowInput → Nat → ChainOutcome
  | _, w, 0 => .running w 0
  | k, w, fuel + 1 =>
    match workflowRun parse dumps (envs k) w with
    | .error e => .failed e 1
    | .ok res =>
      match res.spawn with
      | none => .terminal res.final 1
      | some w2 => (runChainAux parse dumps envs (k + 1) w2 fuel).bumpGen

/-- The chain of workflow runs started by one caller-triggered run. -/
def runChain (parse : String → Option JValue) (dumps : JValue → String)
    (envs : Nat → Env) (w : WorkflowInput) (fuel : Nat) : ChainOutcome :=
  runChainAux parse dumps envs 0 w fuel

/-! Concrete fixtures used by closed evaluations: a finite JSON parse table
standing in for `json.loads`, a constant dump function standing in for
`json.dumps`, and environments whose generator and executor succeed while the
validator reports `valid:false` every time. -/

/-- Finite stand-in for `json.loads` on the strings the fixtures use. -/
def tableParse : String → Option JValue := fun s =>
  if s = "GEN_OK" then some (.obj [("success", .bool true)])
  else if s = "EXEC_OK" then some (.obj [("success", .bool true)])
  else if s = "VAL_FAIL" then
    some (.obj [("data", .obj [("valid", .bool false)])])
  else if s = "VAL_OK" then
    some (.obj [("data", .obj [("valid", .bool true)])])
  else if s = "\x7b\x7d" then some (.obj [])
  else none

/-- Constant stand-in for `json.dumps(..., indent=2)`. -/
def dumpsConst : JValue → String := fun _ => "VALIDATION_DUMP"

/-- Environment whose generator and executor tools succeed and whose
validator reports `valid:false`; the output file is unreadable. -/
def badEnv : Env :=
  { runId := "run-0000-aaaa"
    tempName := "x0"
    genProc := { timedOut := false, returncode := 0, stdout := "GEN_OK", stderr := "" }
    execProc := { timedOut := false, returncode := 0, stdout := "EXEC_OK", stderr := "" }
    valProc := { timedOut := false, returncode := 0, stdout := "VAL_FAIL", stderr := "" }
    readFile := fun _ => none }

/-- Like `badEnv`, but each spawned run gets a fresh run id and a fresh temp
directory, as Hatchet and `tempfile.mkdtemp` give it. -/
def freshEnvs : Nat → Env := fun k =>
  { badEnv with runId := "run-" ++ toString k, tempName := "x" ++ toString k }

/-- Environment whose generator tool exits nonzero (process-level failure)
at the first attempt. -/
def genFailEnv : Env :=
  { badEnv with
      genProc := { timedOut := false, returncode := 3, stdout := "partial", stderr := "boom" } }

/-- Caller input with `max_attempts = 2`. -/
def demoInput : WorkflowInput :=
  { contract := "contract.yaml"
    task := "demo task"
    input_json := some "\x7b\x7d"
    max_attempts := some 2
    retry_state := none }

/-- The feedback text attempt 1 synthesizes under `dumpsConst` when the
validator reports `valid:false`, `max_attempts = 2`, and the output file is
unreadable. -/
def retryFeedback : String :=
  "ATTEMPT 1/2 FAILED.\n\nCONTRACT ERRORS:\nVALIDATION_DUMP\n\nFIX THE NUSHELL SCRIPT TO SATISFY THE CONTRACT."

/-- The `_retry_state` payload a run in `badEnv` attaches when it spawns its
retry. -/
def badRS : RetryState :=
  { attempt := 1
    feedback := some retryFeedback
    trace_id := "run-0000-aaaa"
    work_dir := "/tmp/fire-flow-run-0000-x0" }

/-- The `_retry_state` attached by the first run under `freshEnvs`. -/
def spawnedRS : RetryState :=
  { attempt := 1
    feedback := some retryFeedback
    trace_id := "run-0"
    work_dir := "/tmp/fire-flow-run-0-x0" }

/-- Input of the run spawned by the first run under `freshEnvs`: the
original caller fields plus `_retry_state` carrying attempt 1, the
synthesized feedback, and the first run's trace id and workspace. -/
def spawnedInput : WorkflowInput :=
  { demoInput with retry_state := some spawnedRS }

/-! Small reduction lemmas for the `Except` monad, used to evaluate the
do-blocks of the step functions. -/

@[simp] theorem ok_bind {α β : Type} (a : α) (f : α → Except PyExc β) :
    (Except.ok a >>= f) = f a := rfl

@[simp] theorem error_bind {α β : Type} (e : PyExc) (f : α → Except PyExc β) :
    ((Except.error e : Except PyExc α) >>= f) = Except.error e := rfl

@[simp] theorem pure_eq_ok {α : Type} (a : α) :
    (pure a : Except PyExc α) = Except.ok a := rfl

@[simp] theorem throw_eq_error {α : Type} (e : PyExc) :
    (throw e : Except PyExc α) = Except.error e := rfl

@[simp] theorem map_error {α β : Type} (f : α → β) (e : PyExc) :
    (f <$> (Except.error e : Except PyExc α)) = Except.error e := rfl

@[simp] theorem map_ok {α β : Type} (f : α → β) (a : α) :
    (f <$> (Except.ok a : Except PyExc α)) = Except.ok (f a) := rfl

/-- Claim C5, counterexample: at a concrete invocation whose subprocess hits
the 300-second timeout, `run_nu_script` does not return a structured
`success:false` / `error:"timeout"` result — `subprocess.run` raises
`TimeoutExpired` and the function has no handler, so the exception
propagates to the caller. -/
theorem claimC5_counterexample :
    run_nu_script tableParse
      { timedOut := true, returncode := 0, stdout := "", stderr := "" } =
      .error .timeoutExpired ∧
    run_nu_script tableParse
      { timedOut := true, returncode := 0, stdout := "", stderr := "" } ≠
      .ok (.obj [("success", .bool false), ("error", .str "timeout")]) := by
  refine ⟨rfl, fun h => ?_⟩
  simp [run_nu_script] at h

/-- Claim C5, as amended: for every tool invocation whose subprocess exceeds
the wall-clock timeout, the invoker propagates the `TimeoutExpired`
exception to its caller (so it does not block indefinitely, but it also does
not return any structured result). -/
theorem run_nu_script_timeout_raises (parse : String → Option JValue)
    (proc : ProcOutcome) (h : proc.timedOut = true) :
    run_nu_script parse proc = .error .timeoutExpired := by
  simp [run_nu_script, h]

/-- Witness for `run_nu_script_timeout_raises` at a concrete timed-out
subprocess. -/
theorem run_nu_script_timeout_raises_witness :
    run_nu_script tableParse
      { timedOut := true, returncode := 1, stdout := "out", stderr := "err" } =
      .error .timeoutExpired :=
  run_nu_script_timeout_raises tableParse
    { timedOut := true, returncode := 1, stdout := "out", stderr := "err" } rfl

/-- Claim C8: on zero exit status without timeout, the invoker returns the
parsed stdout JSON unchanged when stdout parses, and wraps unparseable
stdout as a `success:true` / `raw_output` result — never an error. -/
theorem run_nu_script_zero_exit_passthrough (parse : String → Option JValue)
    (proc : ProcOutcome) (ht : proc.timedOut = false)
    (h0 : proc.returncode = 0) :
    (∀ j, parse proc.stdout = some j → run_nu_script parse proc = .ok j) ∧
    (parse proc.stdout = none →
      run_nu_script parse proc =
        .ok (.obj [("success", .bool true), ("raw_output", .str proc.stdout)])) := by
  constructor
  · intro j hj
    simp [run_nu_script, ht, h0, hj]
  · intro hn
    simp [run_nu_script, ht, h0, hn]

/-- Witness for `run_nu_script_zero_exit_passthrough`: a JSON stdout is
passed through unwrapped, a plain-text stdout is wrapped as a success. -/
theorem run_nu_script_zero_exit_passthrough_witness :
    run_nu_script tableParse
      { timedOut := false, returncode := 0, stdout := "VAL_OK", stderr := "" } =
      .ok (.obj [("data", .obj [("valid", .bool true)])]) ∧
    run_nu_script tableParse
      { timedOut := false, returncode := 0, stdout := "plain text", stderr := "" } =
      .ok (.obj [("success", .bool true), ("raw_output", .str "plain text")]) :=
  ⟨(run_nu_script_zero_exit_passthrough tableParse
      { timedOut := false, returncode := 0, stdout := "VAL_OK", stderr := "" }
      rfl rfl).1 _ rfl,
   (run_nu_script_zero_exit_passthrough tableParse
      { timedOut := false, returncode := 0, stdout := "plain text", stderr := "" }
      rfl rfl).2 rfl⟩

/-- Claim C6: when the extracted `valid` flag is a boolean `b`, the Decide
step yields success exactly when `b` is true; when `b` is false it escalates
at `attempt ≥ max_attempts` and retries below; and the fail-closed lookup
yields `false` both when the validation result has no `data` field and when
the `data` object has no `valid` field. -/
theorem decide_policy (parse : String → Option JValue) (proc : ProcOutcome)
    (initD : InitData) (genD : GenData) (valD : ValData) (b : Bool)
    (hval : validate parse proc = .ok valD) (hb : valD.valid = .bool b) :
    (decide initD genD valD = .success genD.attempt ↔ b = true) ∧
    (b = false → genD.attempt ≥ initD.max_attempts →
      decide initD genD valD = .escalate genD.attempt valD.validation_result) ∧
    (b = false → genD.attempt < initD.max_attempts →
      decide initD genD valD = .retry genD.attempt) ∧
    (∀ fs, jlookup fs "data" = none →
      extract_valid (.obj fs) = .ok (.bool false)) ∧
    (∀ fs ds, jlookup fs "data" = some (.obj ds) → jlookup ds "valid" = none →
      extract_valid (.obj fs) = .ok (.bool false)) := by
  refine ⟨?_, ?_, ?_, ?_, ?_⟩
  · cases b with
    | true => simp [decide, hb, truthy]
    | false =>
      simp only [decide, hb, truthy]
      split_ifs with h1 h2 <;> simp_all
  · intro hb' hge
    subst hb'
    simp [decide, hb, truthy, hge]
  · intro hb' hlt
    subst hb'
    simp [decide, hb, truthy, not_le.mpr hlt]
  · intro fs h
    simp [extract_valid, pyGet, h, jlookup]
  · intro fs ds h1 h2
    simp [extract_valid, pyGet, h1, h2]

/-- Witness for `decide_policy`: with a validator result whose `valid` flag
is `false` and with attempt 1 of 2, the decision is retry. -/
theorem decide_policy_witness :
    decide
      { trace_id := "run-0000-aaaa", work_dir := "/tmp/w", attempt := 0,
        max_attempts := 2, feedback := "Initial generation" }
      { tool_path := "/tmp/w/tool.nu", attempt := 1,
        result := .obj [("success", .bool true)] }
      { valid := .bool false,
        validation_result := .obj [("data", .obj [("valid", .bool false)])] } =
      .retry 1 :=
  (decide_policy tableParse
    { timedOut := false, returncode := 0, stdout := "VAL_FAIL", stderr := "" }
    { trace_id := "run-0000-aaaa", work_dir := "/tmp/w", attempt := 0,
      max_attempts := 2, feedback := "Initial generation" }
    { tool_path := "/tmp/w/tool.nu", attempt := 1,
      result := .obj [("success", .bool true)] }
    { valid := .bool false,
      validation_result := .obj [("data", .obj [("valid", .bool false)])] }
    false rfl rfl).2.2.1 rfl (by decide)

/-- Claim C7: when the generator tool invocation comes back without a truthy
`success` field (for example after a nonzero exit), the `generate` step
raises `Exception("Generation failed: ...")`, and the whole workflow run
fails with that exception — Execute, Validate and the retry spawn never
happen for that attempt. -/
theorem generate_failure_fatal (parse : String → Option JValue)
    (dumps : JValue → String) (env : Env) (w : WorkflowInput) (r v e : JValue)
    (hr : run_nu_script parse env.genProc = .ok r)
    (hs : pyGet r "success" (.bool false) = .ok v)
    (hv : truthy v = false)
    (he : pyGet r "error" (.str "Unknown error") = .ok e) :
    generate parse env.genProc w (init env w) = .error (.generationFailed e) ∧
    workflowRun parse dumps env w = .error (.generationFailed e) := by
  have hgen : generate parse env.genProc w (init env w) =
      .error (.generationFailed e) := by
    simp [generate, hr, hs, hv, he]
  exact ⟨hgen, by simp [workflowRun, hgen]⟩

/-- Witness for `generate_failure_fatal`: the generator exits with code 3
and stderr "boom"; the run fails with the generation-failure exception. -/
theorem generate_failure_fatal_witness :
    workflowRun tableParse dumpsConst genFailEnv demoInput =
      .error (.generationFailed (.str "boom")) :=
  (generate_failure_fatal tableParse dumpsConst genFailEnv demoInput
    (.obj [("success", .bool false), ("error", .str "boom"),
           ("stdout", .str "partial")])
    (.bool false) (.str "boom") rfl rfl rfl rfl).2

/-- Claim C9: when the decision is retry and the execution-output file is
missing or unreadable, feedback collection does not raise — it still returns
a feedback message consisting of the attempt/max counter, the validation
result dump and the fix instruction, just without the output excerpt. -/
theorem feedback_survives_missing_output (dumps : JValue → String)
    (readFile : String → Option String) (initD : InitData) (execD : ExecData)
    (valD : ValData) (genD : GenData) (a : Int)
    (hread : readFile execD.output_path = none) :
    collect_feedback dumps readFile (.retry a) initD execD valD genD =
      some ("ATTEMPT " ++ toString genD.attempt ++ "/" ++
            toString initD.max_attempts ++ " FAILED.\n\nCONTRACT ERRORS:\n" ++
            dumps valD.validation_result ++
            "\n\nFIX THE NUSHELL SCRIPT TO SATISFY THE CONTRACT.") := by
  simp [collect_feedback, feedbackParts, hread, String.intercalate,
        String.intercalate.go, String.append_assoc]

/-- Witness for `feedback_survives_missing_output` on a filesystem where
every read fails. -/
theorem feedback_survives_missing_output_witness :
    collect_feedback dumpsConst (fun _ => none) (.retry 1)
      (init badEnv demoInput)
      { output_path := "/tmp/fire-flow-run-0000-x0/output.json",
        logs_path := "/tmp/fire-flow-run-0000-x0/logs.json",
        execution_result := .obj [("success", .bool true)] }
      { valid := .bool false,
        validation_result := .obj [("data", .obj [("valid", .bool false)])] }
      { tool_path := "/tmp/fire-flow-run-0000-x0/tool.nu", attempt := 1,
        result := .obj [("success", .bool true)] } =
      some "ATTEMPT 1/2 FAILED.\n\nCONTRACT ERRORS:\nVALIDATION_DUMP\n\nFIX THE NUSHELL SCRIPT TO SATISFY THE CONTRACT." :=
  feedback_survives_missing_output dumpsConst (fun _ => none)
    (init badEnv demoInput)
    { output_path := "/tmp/fire-flow-run-0000-x0/output.json",
      logs_path := "/tmp/fire-flow-run-0000-x0/logs.json",
      execution_result := .obj [("success", .bool true)] }
    { valid := .bool false,
      validation_result := .obj [("data", .obj [("valid", .bool false)])] }
    { tool_path := "/tmp/fire-flow-run-0000-x0/tool.nu", attempt := 1,
      result := .obj [("success", .bool true)] }
    1 rfl

/-- Claim C10: when the caller-supplied `input_json` string does not parse as
JSON, the `execute` step raises `JSONDecodeError` regardless of the executor
tool's behavior (the error is decided before the tool is invoked); and when
`input_json` is omitted the request is built from the default empty-object
string. -/
theorem execute_bad_input_json (parse : String → Option JValue)
    (initD : InitData) (genD : GenData) (w : WorkflowInput) (s : String)
    (hw : w.input_json = some s) (hbad : parse s = none) :
    (∀ proc, execute parse proc w initD genD = .error .jsonDecodeError) ∧
    (∀ w2 : WorkflowInput, w2.input_json = none →
      ∀ ti, parse "\x7b\x7d" = some ti →
        executeRequest parse w2 initD genD =
          .ok { tool_path := genD.tool_path
                tool_input := ti
                output_path := initD.work_dir ++ "/output.json"
                logs_path := initD.work_dir ++ "/logs.json"
                trace_id := initD.trace_id }) := by
  constructor
  · intro proc
    simp [execute, executeRequest, hw, hbad]
  · intro w2 h2 ti hti
    simp [executeRequest, h2, hti]

/-- Witness for `execute_bad_input_json`: a malformed `input_json` makes the
execute step raise for an executor that would have succeeded, and an omitted
`input_json` defaults to the empty JSON object. -/
theorem execute_bad_input_json_witness :
    execute tableParse
      { timedOut := false, returncode := 0, stdout := "EXEC_OK", stderr := "" }
      { demoInput with input_json := some "not json" }
      (init badEnv demoInput)
      { tool_path := "/tmp/fire-flow-run-0000-x0/tool.nu", attempt := 1,
        result := .obj [("success", .bool true)] } =
      .error .jsonDecodeError ∧
    executeRequest tableParse { demoInput with input_json := none }
      (init badEnv demoInput)
      { tool_path := "/tmp/fire-flow-run-0000-x0/tool.nu", attempt := 1,
        result := .obj [("success", .bool true)] } =
      .ok { tool_path := "/tmp/fire-flow-run-0000-x0/tool.nu"
            tool_input := .obj []
            output_path := (init badEnv demoInput).work_dir ++ "/output.json"
            logs_path := (init badEnv demoInput).work_dir ++ "/logs.json"
            trace_id := (init badEnv demoInput).trace_id } :=
  ⟨(execute_bad_input_json tableParse (init badEnv demoInput)
      { tool_path := "/tmp/fire-flow-run-0000-x0/tool.nu", attempt := 1,
        result := .obj [("success", .bool true)] }
      { demoInput with input_json := some "not json" } "not json" rfl rfl).1
      { timedOut := false, returncode := 0, stdout := "EXEC_OK", stderr := "" },
   (execute_bad_input_json tableParse (init badEnv demoInput)
      { tool_path := "/tmp/fire-flow-run-0000-x0/tool.nu", attempt := 1,
        result := .obj [("success", .bool true)] }
      { demoInput with input_json := some "not json" } "not json" rfl rfl).2
      { demoInput with input_json := none } rfl (.obj []) rfl⟩

/-- Helper for the chain claims: in `badEnv` (generator and executor succeed,
validator always reports `valid:false`, `max_attempts = 2`), every workflow
run — whatever `_retry_state` its input carries — decides retry at attempt 1
and spawns another run, because `init` never reads `_retry_state`; so after
any number `fuel` of runs the chain is still running and has performed
`fuel` Generate invocations. -/
theorem retry_chain_stuck :
    ∀ (fuel k : Nat) (rs : Option RetryState), ∃ rs2,
      runChainAux tableParse dumpsConst (fun _ => badEnv) k
        { demoInput with retry_state := rs } fuel =
        .running { demoInput with retry_state := rs2 } fuel := by
  intro fuel
  induction fuel with
  | zero =>
    intro k rs
    exact ⟨rs, rfl⟩
  | succ n ih =>
    intro k rs
    have hstep : workflowRun tableParse dumpsConst badEnv
        { demoInput with retry_state := rs } =
        .ok { final := .obj [("status", .str "retrying"), ("attempt", .num 1)],
              spawn := some { demoInput with retry_state := some badRS } } := rfl
    obtain ⟨rs2, h2⟩ := ih (k + 1) (some badRS)
    exact ⟨rs2, by simp [runChainAux, hstep, h2, ChainOutcome.bumpGen]⟩

/-- Claim C1: with a validator that reports `valid:false` on every attempt
and `max_attempts = 2`, the chain of workflow runs never reaches a terminal
result — after any number `fuel` of runs it is still spawning retries and
has performed `fuel` Generate invocations, so for `fuel ≥ 3` the run has
exceeded `max_attempts` Generate invocations without ever escalating. Each
spawned run restarts at attempt 1 because `init` ignores the `_retry_state`
carried in its input. -/
theorem claimC1_unbounded_generates :
    ∀ fuel : Nat, ∃ rs,
      runChain tableParse dumpsConst (fun _ => badEnv) demoInput fuel =
        .running { demoInput with retry_state := rs } fuel := by
  intro fuel
  obtain ⟨rs2, h⟩ := retry_chain_stuck fuel 0 none
  exact ⟨rs2, h⟩

/-- Claim C2: the retry dispatcher does place the four fields (same trace id,
same workspace, incremented attempt, fresh feedback) into the spawned run's
input as `_retry_state` — but the spawned run does not start from them: its
`init` allocates a new trace id and workspace and resets the attempt counter
to 0 and the feedback to "Initial generation". -/
theorem claimC2_retry_state_discarded :
    workflowRun tableParse dumpsConst (freshEnvs 0) demoInput =
      .ok { final := .obj [("status", .str "retrying"), ("attempt", .num 1)],
            spawn := some spawnedInput } ∧
    init (freshEnvs 1) spawnedInput =
      { trace_id := "run-1"
        work_dir := "/tmp/fire-flow-run-1-x1"
        attempt := 0
        max_attempts := 2
        feedback := "Initial generation" } :=
  ⟨rfl, rfl⟩

/-- Claim C3: the Generate request of attempt 1 carries exactly the feedback
"Initial generation"; but the Generate request of the spawned second run
also carries "Initial generation" — not the feedback synthesized from
attempt 1's Execute/Validate outputs, which sits unread in the spawned
input's `_retry_state`. -/
theorem claimC3_feedback_not_propagated :
    generateRequest demoInput (init (freshEnvs 0) demoInput) =
      { contract_path := "contract.yaml"
        task := "demo task"
        feedback := "Initial generation"
        attempt := "1/2"
        output_path := "/tmp/fire-flow-run-0-x0/tool.nu"
        trace_id := "run-0" } ∧
    workflowRun tableParse dumpsConst (freshEnvs 0) demoInput =
      .ok { final := .obj [("status", .str "retrying"), ("attempt", .num 1)],
            spawn := some spawnedInput } ∧
    generateRequest spawnedInput (init (freshEnvs 1) spawnedInput) =
      { contract_path := "contract.yaml"
        task := "demo task"
        feedback := "Initial generation"
        attempt := "1/2"
        output_path := "/tmp/fire-flow-run-1-x1/tool.nu"
        trace_id := "run-1" } :=
  ⟨rfl, rfl, rfl⟩

/-- Claim C4: the original caller of `run_contract_loop` awaits the first
workflow run's result; when attempt 1 fails validation with
`max_attempts = 5` that run completes with status "retrying", and this is
exactly what the caller receives as the final result — not success and not
escalated. -/
theorem claimC4_caller_sees_retrying :
    run_contract_loop tableParse dumpsConst badEnv "contract.yaml"
      "demo task" "\x7b\x7d" 5 =
      .ok (.obj [("status", .str "retrying"), ("attempt", .num 1)]) :=
  rfl

end FireFlow
